import Mathlib

/-!
Shallow embedding of the CodeCollab authentication and snippet-ownership
subsystem (backend sources: `src/services/snippetService.ts`,
`src/services/authService.ts`, `src/middleware/auth.ts`,
`src/schemas/authSchema.ts`), together with theorems settling the frozen
claims about it.

Modelling conventions:
  * the Prisma-backed tables are explicit lists of records;
  * timestamps are `Nat` values threaded in explicitly (`now`);
  * fallible operations return `Except`;
  * asynchronous store failures that the claims quantify over (a unique-index
    violation racing past the pre-checks, a failing side-effect write) are
    injected through explicit boolean fault flags, since the embedding is
    sequential.
-/

namespace CodeCollab

/-- An `AuthError` as thrown by the auth service: message plus HTTP status. -/
structure AuthErr where
  msg : String
  status : Nat
deriving Repr, DecidableEq

/-- A `SnippetError` as thrown by the snippet service: message plus HTTP status. -/
structure SnippetErr where
  msg : String
  status : Nat
deriving Repr, DecidableEq

/-- A row of the `users` table (Prisma model `User`).  The `password` field
holds the bcrypt hash, never the plaintext. -/
structure User where
  id : String
  email : String
  username : String
  password : String
  firstName : Option String
  lastName : Option String
  avatar : Option String
  bio : Option String
  points : Nat
  level : Nat
  createdAt : Nat
  updatedAt : Nat
deriving Repr, DecidableEq

/-- The `UserResponse` shape returned by the auth service: exactly the fields
of the Prisma `select` lists in `registerUser` / `loginUser` / `verifyToken` /
`getUserProfile` — there is no password field. -/
structure UserResponse where
  id : String
  email : String
  username : String
  firstName : Option String
  lastName : Option String
  avatar : Option String
  bio : Option String
  points : Nat
  level : Nat
  createdAt : Nat
  updatedAt : Nat
deriving Repr, DecidableEq

/-- Projection of a stored user to the response shape (the `select` clause
that omits `password`, and the `...userWithoutPassword` destructuring). -/
def toUserResponse (u : User) : UserResponse :=
  ⟨u.id, u.email, u.username, u.firstName, u.lastName, u.avatar, u.bio,
   u.points, u.level, u.createdAt, u.updatedAt⟩

/-- Serialization of an optional string field (JSON `null` for absent). -/
def optStr : Option String → String
  | none => "null"
  | some s => s

/-- The serialized key/value pairs of a `UserResponse`, as the JSON body
would carry them. -/
def userResponseFields (r : UserResponse) : List (String × String) :=
  [("id", r.id), ("email", r.email), ("username", r.username),
   ("firstName", optStr r.firstName), ("lastName", optStr r.lastName),
   ("avatar", optStr r.avatar), ("bio", optStr r.bio),
   ("points", toString r.points), ("level", toString r.level),
   ("createdAt", toString r.createdAt), ("updatedAt", toString r.updatedAt)]

/-- Modelled from the source's use of `bcryptjs`: the hash is abstracted as an
injective tagging of the plaintext (salt randomization is not modelled; no
claim depends on it). -/
def bcryptHash (plaintext : String) : String :=
  "$2a$12$" ++ plaintext

/-- `bcrypt.compare`: the digest matches exactly the hash of the plaintext. -/
def bcryptCompare (plaintext digest : String) : Bool :=
  digest == bcryptHash plaintext

/-- JavaScript's `toLowerCase()`, character by character (coincides with
`String.toLower`, but stated on the character list so it computes by
kernel reduction). -/
def jsToLowerCase (s : String) : String :=
  ⟨s.data.map Char.toLower⟩

/-- JavaScript's `trim()`: strip whitespace from both ends. -/
def jsTrim (s : String) : String :=
  ⟨((s.data.dropWhile Char.isWhitespace).reverse.dropWhile
      Char.isWhitespace).reverse⟩

/-- The claims embedded in a JWT issued by `loginUser`. -/
structure TokenClaims where
  id : String
  email : String
  username : String
  iss : String
  sub : String
  exp : Nat
deriving Repr, DecidableEq

/-- A bearer token as the verifier sees it: a well-formed token signed with
some secret, a malformed string, or the empty string. -/
inductive Token where
  | signed (claims : TokenClaims) (secret : String)
  | malformed (raw : String)
  | empty
deriving Repr, DecidableEq

/-- The two error classes `jsonwebtoken`'s `verify` can throw here. -/
inductive VerifyError where
  | invalidToken
  | expiredToken
deriving Repr, DecidableEq

/-- `instanceof jwt.JsonWebTokenError`.  In the `jsonwebtoken` library
`TokenExpiredError` is a subclass of `JsonWebTokenError`, so BOTH error
kinds satisfy this check. -/
def isJsonWebTokenError : VerifyError → Bool
  | _ => true

/-- `instanceof jwt.TokenExpiredError`: only the expired error. -/
def isTokenExpiredError : VerifyError → Bool
  | .expiredToken => true
  | .invalidToken => false

/-- `jwt.verify(token, secret)` at time `now`: malformed input or a signature
made with another secret fails as invalid; a correctly signed token past its
expiration fails as expired; otherwise the embedded claims are returned. -/
def jwtVerify (t : Token) (secret : String) (now : Nat) :
    Except VerifyError TokenClaims :=
  match t with
  | .empty => .error .invalidToken
  | .malformed _ => .error .invalidToken
  | .signed c sec =>
    if sec = secret then
      if c.exp ≤ now then .error .expiredToken else .ok c
    else .error .invalidToken

/-- An `Authorization` header value: either the literal form
`"Bearer " ++ token` or a bare token (which, being a JWT-like string, never
itself starts with `"Bearer "`). -/
inductive HeaderValue where
  | withBearer (t : Token)
  | bare (t : Token)
deriving Repr, DecidableEq

/-- `authHeader.startsWith('Bearer ') ? authHeader.substring(7) : authHeader` -/
def extractToken : HeaderValue → Token
  | .withBearer t => t
  | .bare t => t

/-- The structured 401/500 body sent by the middleware. -/
structure ErrorBody where
  error : String
  message : String
deriving Repr, DecidableEq

/-- Outcome of running an auth middleware on a request: either `next()` was
called (with the resolved claims attached to `req.user`, or nothing
attached), or the response was ended with a status and body. -/
inductive MiddlewareResult where
  | proceed (user : Option TokenClaims)
  | reject (status : Nat) (body : ErrorBody)
deriving Repr, DecidableEq

/-- `authenticateToken` (required-mode middleware).  Faithful to the source's
`catch` cascade: `instanceof JsonWebTokenError` is tested BEFORE
`instanceof TokenExpiredError`. -/
def authenticateToken (authHeader : Option HeaderValue) (secret : String)
    (now : Nat) : MiddlewareResult :=
  match authHeader with
  | none =>
    .reject 401 ⟨"Token de acesso necessário", "Authorization header não fornecido"⟩
  | some hv =>
    let token := extractToken hv
    if token = Token.empty then
      .reject 401 ⟨"Token de acesso necessário", "Token não fornecido"⟩
    else
      match jwtVerify token secret now with
      | .ok decoded => .proceed (some decoded)
      | .error e =>
        if isJsonWebTokenError e then
          .reject 401 ⟨"Token inválido", "Token JWT inválido ou malformado"⟩
        else if isTokenExpiredError e then
          .reject 401 ⟨"Token expirado", "Token JWT expirado"⟩
        else
          .reject 500 ⟨"Erro interno do servidor", "Erro durante autenticação"⟩

/-- `optionalAuth` (optional-mode middleware): always proceeds; attaches the
claims only when a token is present and verifies. -/
def optionalAuth (authHeader : Option HeaderValue) (secret : String)
    (now : Nat) : MiddlewareResult :=
  match authHeader with
  | none => .proceed none
  | some hv =>
    let token := extractToken hv
    if token = Token.empty then
      .proceed none
    else
      match jwtVerify token secret now with
      | .ok decoded => .proceed (some decoded)
      | .error _ => .proceed none

/-- A row of the `point_transactions` table. -/
structure PointTransaction where
  userId : String
  amount : Int
  reason : String
  txType : String
deriving Repr, DecidableEq

/-- A row of the `badges` table. -/
structure Badge where
  id : String
  name : String
deriving Repr, DecidableEq

/-- A row of the `user_badges` table. -/
structure UserBadge where
  userId : String
  badgeId : String
deriving Repr, DecidableEq

/-- The slice of the database the auth service touches. -/
structure AuthDb where
  users : List User
  pointTransactions : List PointTransaction
  badges : List Badge
  userBadges : List UserBadge
deriving Repr, DecidableEq

/-- Validated registration input (the `RegisterInput` type). -/
structure RegisterInput where
  email : String
  password : String
  username : String
  firstName : Option String := none
  lastName : Option String := none
deriving Repr, DecidableEq

/-- Validated login input (the `LoginInput` type). -/
structure LoginInput where
  email : String
  password : String
deriving Repr, DecidableEq

/-- Environment of a single `registerUser` run: the id and timestamp the
store assigns to the new row, plus fault flags for the store operations
whose failure the claims quantify over.  `createUniqueViolation` models the
unique-index violation thrown by `prisma.user.create` when a concurrent
registration won the race after the pre-checks passed; the other flags model
rejections of the three `Promise.all` side-effect operations. -/
structure RegEnv where
  newId : String
  now : Nat
  createUniqueViolation : Bool := false
  txCreateFails : Bool := false
  pointsUpdateFails : Bool := false
  badgeFails : Bool := false
deriving Repr, DecidableEq

/-- `awardWelcomeBadge`: looks up the `Community Member` badge and awards it
unless already held; its own `try/catch` swallows every failure, so it never
throws — on failure the state is simply unchanged. -/
def awardWelcomeBadge (db : AuthDb) (badgeFails : Bool) (userId : String) :
    AuthDb :=
  if badgeFails then db
  else
    match db.badges.find? (fun b => b.name == "Community Member") with
    | none => db
    | some communityBadge =>
      if db.userBadges.any
          (fun ub => ub.userId == userId && ub.badgeId == communityBadge.id) then
        db
      else
        { db with userBadges := db.userBadges ++ [⟨userId, communityBadge.id⟩] }

/-- The row `prisma.user.create` persists: points 0 (prior to the bonus),
level 1, password hashed. -/
def newUserRecord (env : RegEnv) (userData : RegisterInput) : User :=
  { id := env.newId, email := userData.email,
    username := userData.username, password := bcryptHash userData.password,
    firstName := userData.firstName, lastName := userData.lastName,
    avatar := none, bio := none, points := 0, level := 1,
    createdAt := env.now, updatedAt := env.now }

/-- `registerUser`: email pre-check, username pre-check, hash, create, then
the `Promise.all` of welcome-point transaction, points increment and badge
award.  A unique-index violation at `create`, or a rejection of the point
transaction or the points increment, is NOT an `AuthError`, so the catch-all
turns it into the generic 500; only the badge step swallows its own
failures. -/
def registerUser (db : AuthDb) (env : RegEnv) (userData : RegisterInput) :
    Except AuthErr (UserResponse × AuthDb) :=
  if db.users.any (fun u => u.email == userData.email) then
    .error ⟨"Usuário com este email já existe", 409⟩
  else if db.users.any (fun u => u.username == userData.username) then
    .error ⟨"Nome de usuário já está em uso", 409⟩
  else
    if env.createUniqueViolation then
      .error ⟨"Erro interno do servidor ao registrar usuário", 500⟩
    else
      let newUser : User := newUserRecord env userData
      let db1 := { db with users := db.users ++ [newUser] }
      if env.txCreateFails || env.pointsUpdateFails then
        .error ⟨"Erro interno do servidor ao registrar usuário", 500⟩
      else
        let db2 :=
          { db1 with
            pointTransactions := db1.pointTransactions ++
              [⟨env.newId, 10, "Bônus de boas-vindas ao CodeCollab", "BONUS"⟩],
            users := db1.users.map
              (fun u => if u.id == env.newId then
                          { u with points := u.points + 10 } else u) }
        let db3 := awardWelcomeBadge db2 env.badgeFails env.newId
        .ok (toUserResponse newUser, db3)

/-- `loginUser`: lookup by email, bcrypt compare, then sign a 1-hour token
with issuer `codecollab-api` and subject = user id; both failure branches
throw the identical generic 401. -/
def loginUser (db : AuthDb) (secret : String) (now : Nat)
    (loginData : LoginInput) : Except AuthErr (Token × UserResponse) :=
  match db.users.find? (fun u => u.email == loginData.email) with
  | none => .error ⟨"Credenciais inválidas", 401⟩
  | some user =>
    if bcryptCompare loginData.password user.password then
      let tokenClaims : TokenClaims :=
        ⟨user.id, user.email, user.username, "codecollab-api", user.id,
         now + 3600⟩
      .ok (Token.signed tokenClaims secret, toUserResponse user)
    else .error ⟨"Credenciais inválidas", 401⟩

/-- `verifyToken` (auth service): verify the JWT, then re-fetch the user.
Faithful to the source's `catch` cascade, where `instanceof
JsonWebTokenError` is tested BEFORE `instanceof TokenExpiredError`. -/
def verifyToken (db : AuthDb) (secret : String) (now : Nat) (token : Token) :
    Except AuthErr UserResponse :=
  match jwtVerify token secret now with
  | .error e =>
    if isJsonWebTokenError e then .error ⟨"Token inválido", 401⟩
    else if isTokenExpiredError e then .error ⟨"Token expirado", 401⟩
    else .error ⟨"Erro interno do servidor ao verificar token", 500⟩
  | .ok decoded =>
    match db.users.find? (fun u => u.id == decoded.id) with
    | none => .error ⟨"Usuário não encontrado", 404⟩
    | some user => .ok (toUserResponse user)

/-- `getUserProfile`: lookup by id with the password-free `select`. -/
def getUserProfile (db : AuthDb) (userId : String) :
    Except AuthErr UserResponse :=
  match db.users.find? (fun u => u.id == userId) with
  | none => .error ⟨"Usuário não encontrado", 404⟩
  | some user => .ok (toUserResponse user)

/-- One `{field, message}` entry of a `ValidationError`. -/
structure FieldIssue where
  field : String
  message : String
deriving Repr, DecidableEq

/-- A character allowed by the username regex `^[a-zA-Z0-9_]+$`. -/
def isUsernameChar (c : Char) : Bool :=
  (('a' ≤ c && c ≤ 'z') || ('A' ≤ c && c ≤ 'Z') || ('0' ≤ c && c ≤ '9')
   || c = '_')

/-- The issues the `username` field of `registerSchema` collects on a raw
string: `.min(3)`, `.max(30)` and `.regex(/^[a-zA-Z0-9_]+$/)`, in chain
order (zod collects all failing checks). -/
def registerUsernameIssues (s : String) : List FieldIssue :=
  (if s.length < 3 then
     [⟨"username", "Nome de usuário deve ter no mínimo 3 caracteres"⟩]
   else []) ++
  (if 30 < s.length then
     [⟨"username", "Nome de usuário deve ter no máximo 30 caracteres"⟩]
   else []) ++
  (if s.length > 0 && s.data.all isUsernameChar then []
   else [⟨"username",
          "Nome de usuário pode conter apenas letras, números e underscore"⟩])

/-- Parsing the `username` field of `registerSchema`: when every check
passes, the transforms `.toLowerCase().trim()` are applied in order;
otherwise a `ValidationError` with the collected `{field, message}` entries
is raised. -/
def parseRegisterUsername (s : String) : Except (List FieldIssue) String :=
  match registerUsernameIssues s with
  | [] => .ok (jsTrim (jsToLowerCase s))
  | issues => .error issues

/-- A row of the `snippets` table (Prisma model `Snippet`).  The schema
declares `updatedAt DateTime @updatedAt`, so EVERY `prisma.snippet.update`
call also refreshes `updatedAt` to the current time. -/
structure Snippet where
  id : String
  title : String
  description : Option String
  content : String
  language : String
  tags : List String
  isPublic : Bool
  views : Nat
  likes : Nat
  createdAt : Nat
  updatedAt : Nat
  authorId : String
deriving Repr, DecidableEq

/-- Case-insensitive substring test, the semantics of Prisma's
`{ contains: q, mode: 'insensitive' }`. -/
def strContainsCI (hay needle : String) : Bool :=
  let n := needle.data.map Char.toLower
  if n.isEmpty then true
  else (hay.data.map Char.toLower).tails.any (fun t => n.isPrefixOf t)

/-- `sortBy` values accepted by `listSnippetsSchema`. -/
inductive SortBy where
  | created
  | updated
  | views
  | likes
  | title
deriving Repr, DecidableEq

/-- `sortOrder` values accepted by `listSnippetsSchema`. -/
inductive SortOrder where
  | asc
  | desc
deriving Repr, DecidableEq

/-- The validated `ListSnippetsQuery` (defaults as in `listSnippetsSchema`:
page 1, limit 20, sort by creation time descending). -/
structure ListSnippetsQuery where
  page : Nat := 1
  limit : Nat := 20
  language : Option String := none
  search : Option String := none
  tag : Option String := none
  author : Option String := none
  sortBy : SortBy := .created
  sortOrder : SortOrder := .desc
  isPublic : Option Bool := none
deriving Repr, DecidableEq

/-- One member of the Prisma `where.OR` list built by
`getSnippetsWithPagination`. -/
inductive OrClause where
  | isPublicTrue
  | authorIdEq (userId : String)
  | titleContains (q : String)
  | descriptionContains (q : String)
  | contentContains (q : String)
deriving Repr, DecidableEq

/-- The Prisma `where` object built by `getSnippetsWithPagination`:
top-level field conditions are conjoined, and the `OR` list (when present)
is one further conjunct, satisfied by ANY of its members. -/
structure SnippetWhere where
  isPublicEq : Option Bool := none
  languageEq : Option String := none
  authorIdEq : Option String := none
  tagsHas : Option String := none
  orClauses : List OrClause := []
deriving Repr, DecidableEq

/-- Construction of the `where` clause, line for line from the source:
the visibility filter first (an explicit `isPublic` query value wins; an
anonymous caller gets `isPublic: true`; a logged-in caller gets
`OR [isPublic, authorId]`), then language / author / tag, and finally the
search filter, which SPREADS the existing `where.OR` and appends the three
`contains` clauses to it. -/
def buildListWhere (query : ListSnippetsQuery) (userId : Option String) :
    SnippetWhere :=
  let w : SnippetWhere := {}
  let w :=
    match query.isPublic with
    | some b => { w with isPublicEq := some b }
    | none =>
      match userId with
      | none => { w with isPublicEq := some true }
      | some uid =>
        { w with orClauses := [.isPublicTrue, .authorIdEq uid] }
  let w :=
    match query.language with
    | some lang => { w with languageEq := some lang }
    | none => w
  let w :=
    match query.author with
    | some a => { w with authorIdEq := some a }
    | none => w
  let w :=
    match query.tag with
    | some t => { w with tagsHas := some t }
    | none => w
  match query.search with
  | some s =>
    { w with orClauses := w.orClauses ++
        [.titleContains s, .descriptionContains s, .contentContains s] }
  | none => w

/-- Satisfaction of one `OR` member by a snippet. -/
def matchesOrClause (s : Snippet) : OrClause → Bool
  | .isPublicTrue => s.isPublic
  | .authorIdEq userId => s.authorId == userId
  | .titleContains q => strContainsCI s.title q
  | .descriptionContains q =>
    match s.description with
    | some d => strContainsCI d q
    | none => false
  | .contentContains q => strContainsCI s.content q

/-- Satisfaction of the whole `where` clause by a snippet. -/
def matchesWhere (w : SnippetWhere) (s : Snippet) : Bool :=
  (match w.isPublicEq with | some b => s.isPublic == b | none => true) &&
  (match w.languageEq with | some l => s.language == l | none => true) &&
  (match w.authorIdEq with | some a => s.authorId == a | none => true) &&
  (match w.tagsHas with | some t => s.tags.contains t | none => true) &&
  (w.orClauses.isEmpty || w.orClauses.any (matchesOrClause s))

/-- The boolean ordering used for `orderBy`. -/
def snippetLe (sortBy : SortBy) (sortOrder : SortOrder) (a b : Snippet) :
    Bool :=
  let keyLe : Bool :=
    match sortBy with
    | .created => a.createdAt ≤ b.createdAt
    | .updated => a.updatedAt ≤ b.updatedAt
    | .views => a.views ≤ b.views
    | .likes => a.likes ≤ b.likes
    | .title => a.title < b.title || a.title == b.title
  match sortOrder with
  | .asc => keyLe
  | .desc => !keyLe || a == b

/-- Insertion into a sorted list (helper for the `orderBy` model). -/
def insertSorted (le : Snippet → Snippet → Bool) (x : Snippet) :
    List Snippet → List Snippet
  | [] => [x]
  | y :: ys => if le x y then x :: y :: ys else y :: insertSorted le x ys

/-- The database's `orderBy`, modelled as an insertion sort. -/
def sortSnippets (le : Snippet → Snippet → Bool) : List Snippet → List Snippet
  | [] => []
  | x :: xs => insertSorted le x (sortSnippets le xs)

/-- `getSnippetsWithPagination`: build the `where` clause, filter, order,
then `skip = (page - 1) * limit` and `take = limit`; the same `where` feeds
the total count.  Returns the page and the total count. -/
def getSnippetsWithPagination (store : List Snippet)
    (query : ListSnippetsQuery) (userId : Option String) :
    List Snippet × Nat :=
  let w := buildListWhere query userId
  let filtered := store.filter (matchesWhere w)
  let sorted := sortSnippets (snippetLe query.sortBy query.sortOrder) filtered
  let skip := (query.page - 1) * query.limit
  ((sorted.drop skip).take query.limit, filtered.length)

/-- `getSnippetById`: 404 when absent, 403 when neither public nor owned;
a permitted read by anyone other than the author increments the stored view
counter (and, through `@updatedAt`, refreshes the stored `updatedAt`), and
returns the snippet with `views` bumped in memory.  Returns the response
snippet together with the resulting store. -/
def getSnippetById (store : List Snippet) (now : Nat) (snippetId : String)
    (userId : Option String) : Except SnippetErr (Snippet × List Snippet) :=
  match store.find? (fun s => s.id == snippetId) with
  | none => .error ⟨"Snippet não encontrado", 404⟩
  | some snippet =>
    let canAccess := snippet.isPublic ||
      (match userId with
       | some uid => snippet.authorId == uid
       | none => false)
    if !canAccess then .error ⟨"Acesso negado ao snippet", 403⟩
    else if userId = some snippet.authorId then
      .ok (snippet, store)
    else
      let stored := { snippet with views := snippet.views + 1,
                                   updatedAt := now }
      .ok ({ snippet with views := snippet.views + 1 },
           store.map (fun s => if s.id == snippetId then stored else s))

/-- Validated `UpdateSnippetInput`: every field optional; an absent field is
left untouched by the Prisma spread `{...updateData}`. -/
structure UpdateSnippetInput where
  title : Option String := none
  description : Option (Option String) := none
  content : Option String := none
  language : Option String := none
  tags : Option (List String) := none
  isPublic : Option Bool := none
deriving Repr, DecidableEq

/-- The record produced by `prisma.snippet.update` with data
`{...updateData, updatedAt: new Date()}`. -/
def applySnippetUpdate (updateData : UpdateSnippetInput) (now : Nat)
    (s : Snippet) : Snippet :=
  { s with
    title := updateData.title.getD s.title,
    description := updateData.description.getD s.description,
    content := updateData.content.getD s.content,
    language := updateData.language.getD s.language,
    tags := updateData.tags.getD s.tags,
    isPublic := updateData.isPublic.getD s.isPublic,
    updatedAt := now }

/-- `updateSnippet`: 404 when absent, 403 when the caller is not the author
(regardless of visibility), otherwise the update is applied. -/
def updateSnippet (store : List Snippet) (now : Nat) (snippetId : String)
    (updateData : UpdateSnippetInput) (authorId : String) :
    Except SnippetErr (Snippet × List Snippet) :=
  match store.find? (fun s => s.id == snippetId) with
  | none => .error ⟨"Snippet não encontrado", 404⟩
  | some existingSnippet =>
    if existingSnippet.authorId = authorId then
      let updated := applySnippetUpdate updateData now existingSnippet
      .ok (updated,
           store.map (fun s => if s.id == snippetId then updated else s))
    else .error ⟨"Você não tem permissão para editar este snippet", 403⟩

/-- `deleteSnippet`: 404 when absent, 403 when the caller is not the author,
otherwise the row is removed. -/
def deleteSnippet (store : List Snippet) (snippetId : String)
    (authorId : String) : Except SnippetErr (List Snippet) :=
  match store.find? (fun s => s.id == snippetId) with
  | none => .error ⟨"Snippet não encontrado", 404⟩
  | some existingSnippet =>
    if existingSnippet.authorId = authorId then
      .ok (store.filter (fun s => !(s.id == snippetId)))
    else .error ⟨"Você não tem permissão para deletar este snippet", 403⟩

/-! ## Theorems settling the claims -/

/-- A private snippet of another author whose title matches the search term. -/
def leakedSnippet : Snippet :=
  ⟨"s1", "secret stuff", none, "code", "javascript", [], false, 0, 0, 0, 0,
   "alice"⟩

/-- C1: REFUTED on the code.  For the authenticated caller `bob` and the
listing query with search term `secret`, the result of the paginated
snippet listing contains `alice`'s PRIVATE snippet: the search filter
spreads the visibility `OR` list and appends the `contains` clauses to it,
so matching the search term alone suffices for inclusion. -/
theorem search_listing_returns_foreign_private_snippet :
    (getSnippetsWithPagination [leakedSnippet] { search := some "secret" }
        (some "bob")).fst = [leakedSnippet] ∧
    leakedSnippet.isPublic = false ∧ leakedSnippet.authorId ≠ "bob" := by
  refine ⟨rfl, rfl, by decide⟩

/-- C6: REFUTED on the code (required-mode middleware).  An expired,
correctly signed token is detected as expired by `jwt.verify` (first
conjunct), but the middleware and the service `verifyToken` answer with the
SAME 401 body as for an invalid signature: in `jsonwebtoken`,
`TokenExpiredError` is a subclass of `JsonWebTokenError`, and the
`instanceof JsonWebTokenError` branch is tested first, so the distinct
`Token expirado` branch is unreachable. -/
theorem expired_token_message_equals_invalid_message :
    jwtVerify
        (.signed ⟨"u1", "e@x.com", "alice", "codecollab-api", "u1", 5⟩ "sec")
        "sec" 10 = .error .expiredToken ∧
    authenticateToken
        (some (.withBearer
          (.signed ⟨"u1", "e@x.com", "alice", "codecollab-api", "u1", 5⟩
            "sec"))) "sec" 10 =
      .reject 401 ⟨"Token inválido", "Token JWT inválido ou malformado"⟩ ∧
    authenticateToken
        (some (.withBearer
          (.signed ⟨"u1", "e@x.com", "alice", "codecollab-api", "u1", 100⟩
            "wrong"))) "sec" 10 =
      .reject 401 ⟨"Token inválido", "Token JWT inválido ou malformado"⟩ ∧
    verifyToken ⟨[], [], [], []⟩ "sec" 10
        (.signed ⟨"u1", "e@x.com", "alice", "codecollab-api", "u1", 5⟩
          "sec") =
      .error ⟨"Token inválido", 401⟩ := by
  refine ⟨rfl, rfl, rfl, rfl⟩

/-- C3 counterexample: a failure of the welcome-point transaction rejects
the `Promise.all`, reaches the catch-all, and registration FAILS with the
generic 500 — it is not swallowed, contradicting the claim that the side
effect's failure leaves `registerUser` returning the created identity. -/
theorem point_tx_failure_fails_registration :
    registerUser ⟨[], [], [], []⟩
        { newId := "u1", now := 0, txCreateFails := true }
        ⟨"a@x.com", "Passw0rd", "alice", none, none⟩ =
      .error ⟨"Erro interno do servidor ao registrar usuário", 500⟩ := rfl

/-- C4 counterexample: with both pre-checks passing, a unique-index
violation thrown by the store's `create` (a lost race) is NOT an
`AuthError`, so the catch-all maps it to the generic 500 — not the
`ConflictError` 409 the claim states. -/
theorem store_unique_violation_is_internal_error_not_conflict :
    registerUser ⟨[], [], [], []⟩
        { newId := "u1", now := 0, createUniqueViolation := true }
        ⟨"b@x.com", "Passw0rd", "bob", none, none⟩ =
      .error ⟨"Erro interno do servidor ao registrar usuário", 500⟩ ∧
    (500 : Nat) ≠ 409 := by
  refine ⟨rfl, by decide⟩

/-- C9 counterexample: a successful fetch by the non-owner `bob` increments
the stored view counter from 3 to 4 but ALSO changes the stored `updatedAt`
field from 0 to the current time 7, because the Prisma schema declares
`updatedAt @updatedAt`; so a second stored field changes, contradicting the
claim that no other stored field changes. -/
theorem view_increment_also_touches_updatedAt :
    getSnippetById
        [⟨"s1", "t", none, "c", "js", [], true, 3, 0, 0, 0, "alice"⟩] 7 "s1"
        (some "bob") =
      .ok (⟨"s1", "t", none, "c", "js", [], true, 4, 0, 0, 0, "alice"⟩,
           [⟨"s1", "t", none, "c", "js", [], true, 4, 0, 0, 7, "alice"⟩]) ∧
    (7 : Nat) ≠ 0 := by
  refine ⟨rfl, by decide⟩

/-- C5 counterexample: the registration validator REJECTS a 40-character
username (the schema's maximum is 30, not 50) and REJECTS a username
containing a hyphen (the schema's regex is `^[a-zA-Z0-9_]+$`, without
hyphen), contradicting the claim that both are accepted. -/
theorem username_40_chars_and_hyphen_rejected :
    parseRegisterUsername (String.mk (List.replicate 40 'a')) =
      .error [⟨"username",
               "Nome de usuário deve ter no máximo 30 caracteres"⟩] ∧
    parseRegisterUsername "user-name" =
      .error [⟨"username",
               "Nome de usuário pode conter apenas letras, números e underscore"⟩] := by
  refine ⟨rfl, rfl⟩

/-- Shape of `getSnippetById` on a snippet present in the store: access is
granted exactly when the snippet is public or the caller is the author; a
granted read by the author changes nothing, and by anyone else bumps the
stored `views` and `updatedAt`. -/
theorem getSnippetById_found
    (store : List Snippet) (now : Nat) (snippetId : String)
    (userId : Option String) (s : Snippet)
    (h : store.find? (fun x => x.id == snippetId) = some s) :
    getSnippetById store now snippetId userId =
      if s.isPublic = true ∨ userId = some s.authorId then
        if userId = some s.authorId then .ok (s, store)
        else
          .ok ({ s with views := s.views + 1 },
               store.map (fun x => if x.id == snippetId then
                 { s with views := s.views + 1, updatedAt := now } else x))
      else .error ⟨"Acesso negado ao snippet", 403⟩ := by
  unfold getSnippetById
  rw [h]
  cases hs : s.isPublic
  · cases userId with
    | none => simp [hs]
    | some uid =>
      by_cases ha : s.authorId = uid
      · simp [hs, ha]
      · have : ¬(some uid = some s.authorId) := by
          simp [Option.some.injEq]
          intro he
          exact ha he.symm
        simp [hs, ha, this]
  · by_cases ho : userId = some s.authorId
    · simp [hs, ho]
    · simp [hs, ho]

/-- C2: the ownership policy of the snippet service.  For a snippet that
exists in the store, fetching by id succeeds exactly when it is public or
the caller is the author, and otherwise fails with the 403 (not 404) access
error; updating and deleting succeed exactly when the caller is the author,
and otherwise fail with 403, regardless of `isPublic`. -/
theorem snippet_ownership_policy
    (store : List Snippet) (now : Nat) (snippetId : String)
    (userId : Option String) (callerId : String) (upd : UpdateSnippetInput)
    (s : Snippet)
    (h : store.find? (fun x => x.id == snippetId) = some s) :
    ((getSnippetById store now snippetId userId).isOk = true ↔
      (s.isPublic = true ∨ userId = some s.authorId)) ∧
    (¬(s.isPublic = true ∨ userId = some s.authorId) →
      getSnippetById store now snippetId userId =
        .error ⟨"Acesso negado ao snippet", 403⟩) ∧
    ((updateSnippet store now snippetId upd callerId).isOk = true ↔
      s.authorId = callerId) ∧
    (s.authorId ≠ callerId →
      updateSnippet store now snippetId upd callerId =
        .error ⟨"Você não tem permissão para editar este snippet", 403⟩) ∧
    ((deleteSnippet store snippetId callerId).isOk = true ↔
      s.authorId = callerId) ∧
    (s.authorId ≠ callerId →
      deleteSnippet store snippetId callerId =
        .error ⟨"Você não tem permissão para deletar este snippet", 403⟩) := by
  rw [getSnippetById_found store now snippetId userId s h] at *
  refine ⟨?_, ?_, ?_, ?_, ?_, ?_⟩
  · by_cases hc : s.isPublic = true ∨ userId = some s.authorId
    · by_cases ho : userId = some s.authorId
      · simp [hc, ho, Except.isOk, Except.toBool]
      · have hp := hc.resolve_right ho
        simp [hc, hp, ho, Except.isOk, Except.toBool]
    · simp [hc, Except.isOk, Except.toBool]
  · intro hc
    simp [hc]
  · by_cases ha : s.authorId = callerId <;>
      simp [updateSnippet, h, ha, Except.isOk, Except.toBool]
  · intro ha
    simp [updateSnippet, h, ha]
  · by_cases ha : s.authorId = callerId <;>
      simp [deleteSnippet, h, ha, Except.isOk, Except.toBool]
  · intro ha
    simp [deleteSnippet, h, ha]

/-- Witness for C2 at a concrete input: `bob` can neither read nor update
nor delete `alice`'s private snippet — all three give 403. -/
theorem snippet_ownership_policy_witness :
    getSnippetById
        [⟨"p1", "t", none, "c", "js", [], false, 0, 0, 0, 0, "alice"⟩] 0 "p1"
        (some "bob") = .error ⟨"Acesso negado ao snippet", 403⟩ ∧
    updateSnippet
        [⟨"p1", "t", none, "c", "js", [], false, 0, 0, 0, 0, "alice"⟩] 0 "p1"
        {} "bob" =
      .error ⟨"Você não tem permissão para editar este snippet", 403⟩ ∧
    deleteSnippet
        [⟨"p1", "t", none, "c", "js", [], false, 0, 0, 0, 0, "alice"⟩] "p1"
        "bob" =
      .error ⟨"Você não tem permissão para deletar este snippet", 403⟩ := by
  have h := snippet_ownership_policy
    [⟨"p1", "t", none, "c", "js", [], false, 0, 0, 0, 0, "alice"⟩] 0 "p1"
    (some "bob") "bob" {}
    ⟨"p1", "t", none, "c", "js", [], false, 0, 0, 0, 0, "alice"⟩ rfl
  exact ⟨h.2.1 (by simp), h.2.2.2.1 (by simp), h.2.2.2.2.2 (by simp)⟩

/-- C3 (amended): with the pre-checks passing and the store's create
succeeding, a failure of the BADGE award alone never fails registration —
`registerUser` still returns the created identity — but a failure of the
welcome-point transaction or of the points increment rejects the
`Promise.all` and fails registration with the generic 500. -/
theorem register_swallows_only_badge_failure
    (db : AuthDb) (env : RegEnv) (userData : RegisterInput)
    (hEmail : db.users.any (fun u => u.email == userData.email) = false)
    (hUsername : db.users.any (fun u => u.username == userData.username) = false)
    (hCreate : env.createUniqueViolation = false) :
    (env.txCreateFails = false → env.pointsUpdateFails = false →
      (registerUser db env userData).map Prod.fst =
        .ok (toUserResponse (newUserRecord env userData))) ∧
    (env.txCreateFails = true ∨ env.pointsUpdateFails = true →
      registerUser db env userData =
        .error ⟨"Erro interno do servidor ao registrar usuário", 500⟩) := by
  constructor
  · intro hTx hPt
    simp [registerUser, hEmail, hUsername, hCreate, hTx, hPt, Except.map]
  · intro hOr
    have hb : (env.txCreateFails || env.pointsUpdateFails) = true := by
      rcases hOr with hf | hf <;> simp [hf]
    simp [registerUser, hEmail, hUsername, hCreate, hb]

/-- Witness for C3's amended claim: concrete registration with the badge
step failing still succeeds and returns the created identity; the same
registration with the point-transaction step failing returns the 500. -/
theorem register_swallows_only_badge_failure_witness :
    (registerUser ⟨[], [], [], []⟩ { newId := "u1", now := 0, badgeFails := true }
        ⟨"a@x.com", "Passw0rd", "alice", none, none⟩).map Prod.fst =
      .ok (toUserResponse (newUserRecord
        { newId := "u1", now := 0, badgeFails := true }
        ⟨"a@x.com", "Passw0rd", "alice", none, none⟩)) ∧
    registerUser ⟨[], [], [], []⟩ { newId := "u1", now := 0, txCreateFails := true }
        ⟨"a@x.com", "Passw0rd", "alice", none, none⟩ =
      .error ⟨"Erro interno do servidor ao registrar usuário", 500⟩ := by
  constructor
  · exact (register_swallows_only_badge_failure ⟨[], [], [], []⟩
      { newId := "u1", now := 0, badgeFails := true }
      ⟨"a@x.com", "Passw0rd", "alice", none, none⟩ rfl rfl rfl).1 rfl rfl
  · exact (register_swallows_only_badge_failure ⟨[], [], [], []⟩
      { newId := "u1", now := 0, txCreateFails := true }
      ⟨"a@x.com", "Passw0rd", "alice", none, none⟩ rfl rfl rfl).2 (Or.inl rfl)

/-- C4 (amended): when both pre-checks pass but the store's create fails
with a unique-index violation (a concurrent registration won the race),
`registerUser` fails with the generic internal `AuthError` of status 500 —
not with the `ConflictError` 409 that the pre-checks produce. -/
theorem register_store_unique_violation_gives_500
    (db : AuthDb) (env : RegEnv) (userData : RegisterInput)
    (hEmail : db.users.any (fun u => u.email == userData.email) = false)
    (hUsername : db.users.any (fun u => u.username == userData.username) = false)
    (hCreate : env.createUniqueViolation = true) :
    registerUser db env userData =
      .error ⟨"Erro interno do servidor ao registrar usuário", 500⟩ := by
  simp [registerUser, hEmail, hUsername, hCreate]

/-- Witness for C4's amended claim at a concrete registration. -/
theorem register_store_unique_violation_gives_500_witness :
    registerUser ⟨[], [], [], []⟩
        { newId := "u2", now := 3, createUniqueViolation := true }
        ⟨"c@x.com", "Passw0rd", "carol", none, none⟩ =
      .error ⟨"Erro interno do servidor ao registrar usuário", 500⟩ :=
  register_store_unique_violation_gives_500 ⟨[], [], [], []⟩
    { newId := "u2", now := 3, createUniqueViolation := true }
    ⟨"c@x.com", "Passw0rd", "carol", none, none⟩ rfl rfl rfl

/-- C7: when no identity has the given email, or the identity exists but
the bcrypt comparison fails, `loginUser` fails with the identical generic
`AuthError` (`Credenciais inválidas`, 401) in both cases, and no token is
issued. -/
theorem login_failures_indistinguishable
    (db : AuthDb) (secret : String) (now : Nat) (loginData : LoginInput)
    (h : ∀ u, db.users.find? (fun x => x.email == loginData.email) = some u →
          bcryptCompare loginData.password u.password = false) :
    loginUser db secret now loginData = .error ⟨"Credenciais inválidas", 401⟩ := by
  unfold loginUser
  cases hf : db.users.find? (fun x => x.email == loginData.email) with
  | none => rfl
  | some u => simp [h u hf]

/-- Witness for C7: the two concrete failure modes — unknown email against
a store containing `alice`, and `alice`'s email with a wrong password —
produce the very same error value. -/
theorem login_failures_indistinguishable_witness :
    loginUser ⟨[⟨"u1", "a@x.com", "alice", bcryptHash "Passw0rd", none, none,
        none, none, 10, 1, 0, 0⟩], [], [], []⟩ "sec" 0
        ⟨"b@x.com", "Passw0rd"⟩ = .error ⟨"Credenciais inválidas", 401⟩ ∧
    loginUser ⟨[⟨"u1", "a@x.com", "alice", bcryptHash "Passw0rd", none, none,
        none, none, 10, 1, 0, 0⟩], [], [], []⟩ "sec" 0
        ⟨"a@x.com", "WrongPass1"⟩ = .error ⟨"Credenciais inválidas", 401⟩ := by
  constructor
  · exact login_failures_indistinguishable _ "sec" 0 ⟨"b@x.com", "Passw0rd"⟩
      (by intro u hu; simp at hu)
  · exact login_failures_indistinguishable _ "sec" 0 ⟨"a@x.com", "WrongPass1"⟩
      (by intro u hu; simp at hu; simp [← hu, bcryptCompare, bcryptHash])

/-- C5 (amended): the registration validator accepts exactly the usernames
of 3 to 30 characters drawn from `[a-zA-Z0-9_]` (no hyphen): acceptance is
characterized by those bounds, an accepted username is returned lowercased
and trimmed, and a rejected one yields a nonempty list of `{field, message}`
entries, all for the `username` field. -/
theorem username_schema_characterization (s : String) :
    ((parseRegisterUsername s).isOk = true ↔
      (3 ≤ s.length ∧ s.length ≤ 30 ∧ s.data.all isUsernameChar = true)) ∧
    ((parseRegisterUsername s).isOk = true →
      parseRegisterUsername s = .ok (jsTrim (jsToLowerCase s))) ∧
    ((parseRegisterUsername s).isOk = false →
      parseRegisterUsername s = .error (registerUsernameIssues s) ∧
      registerUsernameIssues s ≠ [] ∧
      (registerUsernameIssues s).all (fun i => i.field == "username") = true) := by
  have hnil : registerUsernameIssues s = [] ↔
      (3 ≤ s.length ∧ s.length ≤ 30 ∧ s.data.all isUsernameChar = true) := by
    constructor
    · intro he
      have h1 : ¬ s.length < 3 := by
        intro h1
        simp [registerUsernameIssues, h1] at he
      have h2 : ¬ 30 < s.length := by
        intro h2
        simp [registerUsernameIssues, h2] at he
      have h3 : s.data.all isUsernameChar = true := by
        by_contra h3
        simp [registerUsernameIssues, h1, h2, h3] at he
      exact ⟨by omega, by omega, h3⟩
    · rintro ⟨ha, hb, hc⟩
      have h1 : ¬ s.length < 3 := by omega
      have h2 : ¬ 30 < s.length := by omega
      have h0 : 0 < s.length := by omega
      simp [registerUsernameIssues, h1, h2, h0, hc]
  have hfields :
      (registerUsernameIssues s).all (fun i => i.field == "username") = true := by
    by_cases h1 : s.length < 3 <;> by_cases h2 : 30 < s.length <;>
      by_cases h3 : (s.length > 0 && s.data.all isUsernameChar) = true <;>
        simp [registerUsernameIssues, h1, h2, h3]
  refine ⟨?_, ?_, ?_⟩
  · cases hi : registerUsernameIssues s with
    | nil =>
      simp [parseRegisterUsername, hi, Except.isOk, Except.toBool, hnil.mp hi]
    | cons a l =>
      simp only [parseRegisterUsername, hi, Except.isOk, Except.toBool]
      constructor
      · intro hfalse
        exact absurd hfalse (by simp)
      · intro hcond
        rw [hnil.mpr hcond] at hi
        exact absurd hi (by simp)
  · intro hok
    cases hi : registerUsernameIssues s with
    | nil => simp [parseRegisterUsername, hi]
    | cons a l =>
      rw [show parseRegisterUsername s = .error (a :: l) by
        simp [parseRegisterUsername, hi]] at hok
      exact absurd hok (by simp [Except.isOk, Except.toBool])
  · intro hfail
    cases hi : registerUsernameIssues s with
    | nil =>
      rw [show parseRegisterUsername s = .ok (jsTrim (jsToLowerCase s)) by
        simp [parseRegisterUsername, hi]] at hfail
      exact absurd hfail (by simp [Except.isOk, Except.toBool])
    | cons a l =>
      refine ⟨by simp [parseRegisterUsername, hi], by simp [hi], hi ▸ hfields⟩

/-- Witness for C5's amended claim: `John_Doe` (8 chars, letters, digits
and underscore) is accepted and normalized to lowercase. -/
theorem username_schema_characterization_witness :
    parseRegisterUsername "John_Doe" = .ok "john_doe" :=
  (username_schema_characterization "John_Doe").2.1 (by decide)

/-- C8: no successful result of `registerUser`, `loginUser`, `verifyToken`
or `getUserProfile` carries a `password` field: the serialized keys of
every returned user object omit it (the response shape is exactly the
password-free `select` list); additionally, the user object `loginUser`
returns is exactly the password-dropping projection of the stored record. -/
theorem responses_omit_password :
    (∀ db env input r db2, registerUser db env input = .ok (r, db2) →
      "password" ∉ (userResponseFields r).map Prod.fst) ∧
    (∀ db secret now loginData tok r,
      loginUser db secret now loginData = .ok (tok, r) →
      "password" ∉ (userResponseFields r).map Prod.fst) ∧
    (∀ db secret now t r, verifyToken db secret now t = .ok r →
      "password" ∉ (userResponseFields r).map Prod.fst) ∧
    (∀ db userId r, getUserProfile db userId = .ok r →
      "password" ∉ (userResponseFields r).map Prod.fst) ∧
    (∀ db secret now loginData tok r,
      loginUser db secret now loginData = .ok (tok, r) →
      ∃ u, db.users.find? (fun x => x.email == loginData.email) = some u ∧
        r = toUserResponse u) := by
  have key : ∀ r : UserResponse,
      "password" ∉ (userResponseFields r).map Prod.fst := by
    intro r
    simp [userResponseFields]
  refine ⟨fun _ _ _ r _ _ => key r, fun _ _ _ _ _ r _ => key r,
          fun _ _ _ _ r _ => key r, fun _ _ r _ => key r, ?_⟩
  intro db secret now loginData tok r hok
  unfold loginUser at hok
  cases hf : db.users.find? (fun x => x.email == loginData.email) with
  | none =>
    rw [hf] at hok
    exact absurd hok (by simp)
  | some u =>
    rw [hf] at hok
    by_cases hbc : bcryptCompare loginData.password u.password
    · simp only [hbc, if_true] at hok
      refine ⟨u, rfl, ?_⟩
      cases hok
      rfl
    · simp [hbc] at hok

/-- Witness for C8 at concrete successful calls of all four operations. -/
theorem responses_omit_password_witness :
    ("password" ∉ (userResponseFields (toUserResponse (newUserRecord
        { newId := "u1", now := 0 }
        ⟨"a@x.com", "Passw0rd", "alice", none, none⟩))).map Prod.fst) ∧
    ("password" ∉ (userResponseFields (toUserResponse
        ⟨"u1", "a@x.com", "alice", bcryptHash "Passw0rd", none, none, none,
         none, 10, 1, 0, 0⟩)).map Prod.fst) := by
  constructor
  · exact responses_omit_password.1 ⟨[], [], [], []⟩
      { newId := "u1", now := 0 }
      ⟨"a@x.com", "Passw0rd", "alice", none, none⟩ _ _ rfl
  · exact responses_omit_password.2.2.2.1
      ⟨[⟨"u1", "a@x.com", "alice", bcryptHash "Passw0rd", none, none, none,
         none, 10, 1, 0, 0⟩], [], [], []⟩ "u1" _ rfl

/-- C9 (amended): a successful fetch by anyone other than the author
(including an anonymous caller) increments the stored view counter by
exactly 1 AND refreshes the stored `updatedAt` to the current time (the
Prisma `@updatedAt` attribute); every other stored field is unchanged.  A
successful fetch by the author changes nothing. -/
theorem view_counter_semantics
    (store : List Snippet) (now : Nat) (snippetId : String)
    (userId : Option String) (s : Snippet)
    (h : store.find? (fun x => x.id == snippetId) = some s)
    (hAccess : s.isPublic = true ∨ userId = some s.authorId) :
    (userId ≠ some s.authorId →
      getSnippetById store now snippetId userId =
        .ok ({ s with views := s.views + 1 },
             store.map (fun x => if x.id == snippetId then
               { s with views := s.views + 1, updatedAt := now } else x))) ∧
    (userId = some s.authorId →
      getSnippetById store now snippetId userId = .ok (s, store)) := by
  rw [getSnippetById_found store now snippetId userId s h]
  constructor
  · intro ho
    rw [if_pos hAccess, if_neg ho]
  · intro ho
    rw [if_pos hAccess, if_pos ho]

/-- Witness for C9's amended claim: an anonymous read of a public snippet
bumps the stored `views` from 3 to 4 and `updatedAt` from 0 to 9; the
author's read changes nothing. -/
theorem view_counter_semantics_witness :
    getSnippetById
        [⟨"v1", "t", none, "c", "js", [], true, 3, 0, 0, 0, "alice"⟩] 9 "v1"
        none =
      .ok (⟨"v1", "t", none, "c", "js", [], true, 4, 0, 0, 0, "alice"⟩,
           [⟨"v1", "t", none, "c", "js", [], true, 4, 0, 0, 9, "alice"⟩]) ∧
    getSnippetById
        [⟨"v1", "t", none, "c", "js", [], true, 3, 0, 0, 0, "alice"⟩] 9 "v1"
        (some "alice") =
      .ok (⟨"v1", "t", none, "c", "js", [], true, 3, 0, 0, 0, "alice"⟩,
           [⟨"v1", "t", none, "c", "js", [], true, 3, 0, 0, 0, "alice"⟩]) := by
  constructor
  · exact (view_counter_semantics
      [⟨"v1", "t", none, "c", "js", [], true, 3, 0, 0, 0, "alice"⟩] 9 "v1"
      none ⟨"v1", "t", none, "c", "js", [], true, 3, 0, 0, 0, "alice"⟩ rfl
      (Or.inl rfl)).1 (by decide)
  · exact (view_counter_semantics
      [⟨"v1", "t", none, "c", "js", [], true, 3, 0, 0, 0, "alice"⟩] 9 "v1"
      (some "alice") ⟨"v1", "t", none, "c", "js", [], true, 3, 0, 0, 0, "alice"⟩
      rfl (Or.inl rfl)).2 rfl

/-- C10: a token sent in the `Authorization` header WITHOUT the
`Bearer ` prefix is treated by both middlewares exactly as if it had been
sent with the prefix — the whole header value is used as the token — and in
particular a valid bare token is verified and its claims attached. -/
theorem bearer_prefix_optional (t : Token) (secret : String) (now : Nat) :
    authenticateToken (some (.bare t)) secret now =
      authenticateToken (some (.withBearer t)) secret now ∧
    optionalAuth (some (.bare t)) secret now =
      optionalAuth (some (.withBearer t)) secret now ∧
    (∀ c, jwtVerify t secret now = .ok c →
      authenticateToken (some (.bare t)) secret now = .proceed (some c) ∧
      optionalAuth (some (.bare t)) secret now = .proceed (some c)) := by
  refine ⟨rfl, rfl, ?_⟩
  intro c hc
  cases t with
  | empty => simp [jwtVerify] at hc
  | malformed raw =>
    constructor <;> simp [authenticateToken, optionalAuth, extractToken, hc]
  | signed claims sec =>
    constructor <;> simp [authenticateToken, optionalAuth, extractToken, hc]

/-- Witness for C10: a concrete valid token sent bare is verified and its
claims attached by both middlewares. -/
theorem bearer_prefix_optional_witness :
    authenticateToken
        (some (.bare (.signed
          ⟨"u1", "a@x.com", "alice", "codecollab-api", "u1", 100⟩ "sec")))
        "sec" 10 =
      .proceed (some ⟨"u1", "a@x.com", "alice", "codecollab-api", "u1", 100⟩) ∧
    optionalAuth
        (some (.bare (.signed
          ⟨"u1", "a@x.com", "alice", "codecollab-api", "u1", 100⟩ "sec")))
        "sec" 10 =
      .proceed (some ⟨"u1", "a@x.com", "alice", "codecollab-api", "u1", 100⟩) :=
  (bearer_prefix_optional
    (.signed ⟨"u1", "a@x.com", "alice", "codecollab-api", "u1", 100⟩ "sec")
    "sec" 10).2.2
    ⟨"u1", "a@x.com", "alice", "codecollab-api", "u1", 100⟩ rfl

end CodeCollab
